import Mathlib

/-!
Shallow embedding of the camera capture controller in
src/psychopy/hardware/camera/init.py.

Modelling conventions:
* Python floats carrying timestamps, timeouts and frame rates are modelled
  as integers (Time), read as clock ticks of an arbitrary resolution: the
  code only ever compares, copies and subtracts them.
* The external collaborators (ffpyplayer MediaPlayer / MediaWriter, moviepy,
  the OS clock and the filesystem) are modelled as explicit environments:
  PlayerEnv gives the successive getTime readings, the successive
  get_frame results and the get_metadata value; WriterEnv gives the
  random identifier used for the temporary recording files; FileSys
  is an explicit file-size map threaded through save and renderVideo.
* Python None / global sentinel objects are modelled as Option none or as
  dedicated constructors: lastFrame = none models
  lastFrame is NULL_MOVIE_FRAME_INFO (the only way the attribute can hold
  that sentinel object is direct assignment of it), recentMetadata has a
  three-way type MetaVal distinguishing Python None, the NULL_MOVIE_METADATA
  sentinel and a real metadata value, because isReady performs an identity
  comparison against the sentinel only.
* The player handle is Option Bool: none models Python None, some closed
  models a live MediaPlayer object whose close_player has (closed = true)
  or has not (closed = false) been called; close_player keeps the handle.
* Exceptions are modelled with Except and the CamErr type; the cooperative
  polling loop in enqueueFrame is given explicit fuel, and exhausting the
  fuel (result Option.none) models non-termination of the Python loop.
-/

abbrev Time := ℤ

/-- Camera status constants NOT_STARTED, RECORDING, STOPPING, STOPPED. -/
inductive CamStatus
  | notStarted
  | recording
  | stopping
  | stopped
  deriving DecidableEq, Repr

/-- Stream metadata as reported by the frame source, holding the fields the
controller reads: frame size, frame rate and pixel format. -/
structure Metadata where
  width : ℕ
  height : ℕ
  frameRate : ℤ
  pixelFormat : String
  deriving DecidableEq, Repr

/-- Value of the recentMetadata attribute: Python None (its value at
construction), the NULL_MOVIE_METADATA sentinel object, or a real metadata
value returned by get_metadata. -/
inductive MetaVal
  | pyNone
  | nullMeta
  | meta (m : Metadata)
  deriving DecidableEq, Repr

/-- The public frame value built in enqueueFrame (class MovieFrame); the
decoded pixel buffer is abstracted to a numeric identifier. -/
structure MovieFrame where
  frameIndex : ℤ
  absTime : Time
  size : ℕ × ℕ
  colorData : ℕ
  deriving DecidableEq, Repr

/-- A raw frame as returned by the player: the decoded buffer (abstracted to
an identifier) and the absolute presentation timestamp. -/
structure FrameData where
  colorData : ℕ
  absPts : Time
  deriving DecidableEq, Repr

/-- One write_frame call recorded by the writer model. -/
structure WrittenFrame where
  img : ℕ
  pts : Time
  stream : ℕ
  deriving DecidableEq, Repr

/-- The MediaWriter handle: the configuration passed at construction in
openWriter plus the frames written so far. -/
structure MediaWriter where
  fileName : String
  pixFmtIn : String
  widthIn : ℕ
  heightIn : ℕ
  frameRate : ℤ
  written : List WrittenFrame
  deriving DecidableEq, Repr

/-- The mutable state of a Camera object (the attributes set in init and
touched by the modelled methods).  mic is none when no microphone was
attached, and some b for an attached microphone whose capture-started flag
is b (the only call the source makes on it is mic.record()). -/
structure Camera where
  device : String
  mic : Option Bool
  outFile : Option String
  writer : Option MediaWriter
  tempVideoFileName : String
  tempAudioFileName : String
  tempRootDir : String
  player : Option Bool
  status : CamStatus
  frameIndex : ℤ
  startPts : Time
  absPts : Time
  pts : Time
  recentMetadata : MetaVal
  lastFrame : Option MovieFrame
  deriving DecidableEq, Repr

/-- The exceptions the modelled code can raise, one constructor per raise
site (RuntimeError, PlayerNotAvailableError, ValueError, OSError and the
errors propagated from the moviepy collaborators). -/
inductive CamErr
  | playerNotAvailable
  | alreadyOpened
  | writerExists
  | renderBeforeStop
  | saveBeforeStop
  | renderFailed
  | notOpened
  | fileNotFound
  | clipMissing
  | unwritable
  | unsupportedPlatform (systemName : String)
  | cannotChangeOutFile
  | attributeError
  deriving DecidableEq, Repr

/-- Camera.init for a string device: every timestamp starts at the
invalid sentinel -1.0, frameIndex at -1, status NOT_STARTED, no writer, no
player, lastFrame the null-frame sentinel and recentMetadata Python None. -/
def mkCamera (device : String) (mic : Option Bool) : Camera :=
  { device := device
    mic := mic
    outFile := none
    writer := none
    tempVideoFileName := ""
    tempAudioFileName := ""
    tempRootDir := "."
    player := none
    status := .notStarted
    frameIndex := -1
    startPts := -1
    absPts := -1
    pts := -1
    recentMetadata := .pyNone
    lastFrame := none }

/-- Camera.isReady: a player exists and recentMetadata is not (identity
comparison) the NULL_MOVIE_METADATA sentinel object. -/
def isReady (cam : Camera) : Bool :=
  cam.player.isSome && decide (cam.recentMetadata ≠ MetaVal.nullMeta)

/-- Camera.streamTime. -/
def streamTime (cam : Camera) : Time :=
  cam.absPts

/-- Camera.recordingTime. -/
def recordingTime (cam : Camera) : Time :=
  cam.pts

/-- The player environment: getTime readings (clock n is the n-th getTime
call, call 0 being the tStart reading in enqueueFrame), get_frame results
(frames k is the k-th get_frame call of the loop, a frame-or-None plus the
status string) and the get_metadata value. -/
structure PlayerEnv where
  clock : ℕ → Time
  frames : ℕ → Option FrameData × String
  metadata : Metadata

/-- The frame-grabbing loop of Camera.enqueueFrame, verbatim: the loop body
first recomputes timedOut as (getTime() - tStart) < timeout, then calls
get_frame; it breaks when a frame arrived, and the while condition stops it
when timedOut became true.  Returns none when the fuel runs out (the Python
loop has not terminated after that many iterations), otherwise the values of
(timedOut, frame, status) after the loop. -/
def frameLoop (env : PlayerEnv) (timeout : Time) :
    ℕ → ℕ → Option (Bool × (Option FrameData × String))
  | 0, _ => none
  | fuel + 1, k =>
    let timedOut := decide (env.clock (k + 1) - env.clock 0 < timeout)
    let fs := env.frames k
    if fs.1.isSome then some (timedOut, fs)
    else if timedOut then some (timedOut, fs)
    else frameLoop env timeout fuel (k + 1)

/-- Camera.writeFrame: a no-op without a writer or outside RECORDING,
otherwise converts the buffer for the encoder (the SWScale conversion is
modelled as the identity on the abstract buffer) and appends a
write_frame call with the given timestamp on stream 0. -/
def writeFrame (cam : Camera) (colorData : ℕ) (timestamp : Time) : Camera :=
  match cam.writer with
  | none => cam
  | some w =>
    if cam.status ≠ .recording then cam
    else
      let w2 := { w with written := w.written ++ [⟨colorData, timestamp, 0⟩] }
      { cam with writer := some w2 }

/-- The frame-processing tail of Camera.enqueueFrame, applied once the loop
delivered a frame: store the absolute timestamp; while RECORDING latch
startPts on the first frame since record() (lastFrame still the null
sentinel) and set pts to absPts - startPts, otherwise force startPts and pts
to -1.0; publish the new lastFrame built from frameIndex, absPts, the
refreshed metadata size and the buffer; push the frame to the writer with
recordingTime; and on status eof transition to STOPPING. -/
def processFrame (m : Metadata) (cam : Camera) (fr : FrameData)
    (status : String) : Camera :=
  let cam1 := { cam with absPts := fr.absPts }
  let cam2 :=
    if cam1.status = .recording then
      let startPts := if cam1.lastFrame.isNone then fr.absPts else cam1.startPts
      { cam1 with startPts := startPts, pts := fr.absPts - startPts }
    else
      { cam1 with startPts := -1, pts := -1 }
  let newFrame : MovieFrame :=
    { frameIndex := cam2.frameIndex
      absTime := cam2.absPts
      size := (m.width, m.height)
      colorData := fr.colorData }
  let cam3 := { cam2 with lastFrame := some newFrame }
  let cam4 := writeFrame cam3 fr.colorData (recordingTime cam3)
  if status = "eof" then { cam4 with status := .stopping } else cam4

/-- Camera.enqueueFrame: raise PlayerNotAvailableError without a player;
refresh recentMetadata from get_metadata; run the frame loop; if it ended
with timedOut true return False (state otherwise untouched), else process
the delivered frame and return True.  The outer Option is none when the loop
fuel ran out. -/
def enqueueFrame (env : PlayerEnv) (fuel : ℕ) (cam : Camera) (timeout : Time) :
    Except CamErr (Option (Camera × Bool)) :=
  if cam.player.isNone then .error .playerNotAvailable
  else
    let cam1 := { cam with recentMetadata := .meta env.metadata }
    match frameLoop env timeout fuel 0 with
    | none => .ok none
    | some (timedOut, frOpt, s) =>
      if timedOut then .ok (some (cam1, false))
      else
        match frOpt with
        | none => .ok (some (cam1, false))
        | some fr => .ok (some (processFrame env.metadata cam1 fr s, true))

/-- The writer environment: the uuid4 hex used as the fresh random
identifier, and the random part tempfile.mkdtemp adds to the directory. -/
structure WriterEnv where
  randName : String
  mkdtempRand : String

/-- The temporary directory mkdtemp creates in openWriter: its name carries
the psychopy- prefix, the mkdtemp random part and the suffix randName. -/
def tempRootOf (env : WriterEnv) : String :=
  "psychopy-" ++ env.mkdtempRand ++ env.randName

/-- The temporary video file configured in openWriter. -/
def tempVideoOf (env : WriterEnv) : String :=
  tempRootOf env ++ "/video-" ++ env.randName ++ ".mp4"

/-- The temporary audio file configured in openWriter. -/
def tempAudioOf (env : WriterEnv) : String :=
  tempRootOf env ++ "/audio-" ++ env.randName ++ ".wav"

/-- Camera.openWriter: RuntimeError when a writer already exists; assert
the player; no-op when no output file is configured; otherwise set up the
temporary directory and file names from the fresh random identifier, open a
MediaWriter on the temporary video file configured with pix_fmt_in yuv420p
and the width, height and frame rate of recentMetadata, and reset pts to
-1.0.  Reading size and frameRate off a recentMetadata that is not a real
metadata value is a Python attribute error. -/
def openWriter (env : WriterEnv) (cam : Camera) : Except CamErr Camera :=
  if cam.writer.isSome then .error .writerExists
  else if cam.player.isNone then .error .playerNotAvailable
  else
    match cam.outFile with
    | none => .ok cam
    | some _ =>
      match cam.recentMetadata with
      | .meta m =>
        let w : MediaWriter :=
          { fileName := tempVideoOf env
            pixFmtIn := "yuv420p"
            widthIn := m.width
            heightIn := m.height
            frameRate := m.frameRate
            written := [] }
        .ok { cam with
          tempRootDir := tempRootOf env
          tempVideoFileName := tempVideoOf env
          tempAudioFileName := tempAudioOf env
          writer := some w
          pts := -1 }
      | _ => .error .attributeError

/-- Camera.closeWriter: return with the state untouched when no writer is
open; otherwise close the writer, clear the handle and reset startPts, pts
and absPts to -1.0. -/
def closeWriter (cam : Camera) : Camera :=
  match cam.writer with
  | none => cam
  | some _ =>
    { cam with writer := none, startPts := -1, pts := -1, absPts := -1 }

/-- The environment of Camera.openCam: the player collaborator plus the
writer environment for the openWriter call it makes. -/
structure OpenEnv where
  penv : PlayerEnv
  wenv : WriterEnv

/-- Camera.open: RuntimeError when a player already exists; create the
player (the platform-specific ffmpeg option dictionaries configure only the
external MediaPlayer and carry no controller state); perform one
enqueueFrame with timeout 1.0, ignoring its result; then openWriter.
Result none models a non-terminating initial frame pull. -/
def openCam (env : OpenEnv) (fuel : ℕ) (cam : Camera) :
    Except CamErr (Option Camera) :=
  if cam.player.isSome then .error .alreadyOpened
  else
    let cam1 := { cam with player := some false }
    match enqueueFrame env.penv fuel cam1 1 with
    | .error e => .error e
    | .ok none => .ok none
    | .ok (some (cam2, _)) =>
      match openWriter env.wenv cam2 with
      | .error e => .error e
      | .ok cam3 => .ok (some cam3)

/-- Camera.record: assert the player; unless streamOnly, openWriter; reset
lastFrame to the null-frame sentinel; set status RECORDING; and if a
microphone is attached call its record(), setting its capture flag. -/
def record (env : WriterEnv) (cam : Camera) (streamOnly : Bool) :
    Except CamErr Camera :=
  if cam.player.isNone then .error .playerNotAvailable
  else
    match (if streamOnly then .ok cam else openWriter env cam :
        Except CamErr Camera) with
    | .error e => .error e
    | .ok cam1 =>
      let cam2 := { cam1 with lastFrame := none, status := .recording }
      .ok (match cam2.mic with
        | none => cam2
        | some _ => { cam2 with mic := some true })

/-- Camera.stop: assert the player; set status STOPPED; close_player on the
player (the handle object is kept, only its playback is closed); then
closeWriter. -/
def stop (cam : Camera) : Except CamErr Camera :=
  if cam.player.isNone then .error .playerNotAvailable
  else
    .ok (closeWriter { cam with status := .stopped, player := some true })

/-- Camera.close: RuntimeError when never opened; close_player and clear
the player handle; a still-open writer gets its close() called but the
writer attribute is not cleared (only the external handle is affected). -/
def closeCam (cam : Camera) : Except CamErr Camera :=
  if cam.player.isNone then .error .notOpened
  else .ok { cam with player := none }

/-- Setter of Camera.outFile: ValueError while a writer handle is present. -/
def setOutFile (cam : Camera) (value : Option String) : Except CamErr Camera :=
  if cam.writer.isSome then .error .cannotChangeOutFile
  else .ok { cam with outFile := value }

/-- The filesystem model for renderVideo and save: which paths are
writable, the size of each existing file, and the size moviepy gives the
merged file it writes. -/
structure FileSys where
  writable : String → Bool
  size : String → Option ℕ
  mergeSize : ℕ

/-- Writing a file of n bytes at a path. -/
def fsWrite (fs : FileSys) (path : String) (n : ℕ) : FileSys :=
  { fs with size := fun p => if p = path then some n else fs.size p }

/-- Camera.renderVideo: False (no write) when no output file is set;
RuntimeError unless STOPPED; construct the moviepy clips from the two
temporary files (an error when either is missing); write the merged file at
the current outFile (an error propagates when the destination is not
writable); True on success. -/
def renderVideo (fs : FileSys) (cam : Camera) :
    Except CamErr (FileSys × Camera × Bool) :=
  match cam.outFile with
  | none => .ok (fs, cam, false)
  | some out =>
    if cam.status ≠ .stopped then .error .renderBeforeStop
    else if (fs.size cam.tempVideoFileName).isNone then .error .clipMissing
    else if (fs.size cam.tempAudioFileName).isNone then .error .clipMissing
    else if fs.writable out then .ok (fsWrite fs out fs.mergeSize, cam, true)
    else .error .unwritable

/-- Camera.save: RuntimeError unless STOPPED; renderVideo (which writes to
the outFile configured before this call); RuntimeError when it returned
False; only then store the filename argument in outFile; and return
os.path.getsize of that filename (an OSError when no such file exists). -/
def save (fs : FileSys) (cam : Camera) (filename : String) :
    Except CamErr (FileSys × Camera × ℕ) :=
  if cam.status ≠ .stopped then .error .saveBeforeStop
  else
    match renderVideo fs cam with
    | .error e => .error e
    | .ok (fs1, cam1, ok) =>
      if ok then
        let cam2 := { cam1 with outFile := some filename }
        match fs1.size filename with
        | none => .error .fileNotFound
        | some n => .ok (fs1, cam2, n)
      else .error .renderFailed

/-- Camera.getVideoFrame: assert the player, enqueueFrame with the given
timeout, and return the lastFrame attribute (whatever it holds). -/
def getVideoFrame (env : PlayerEnv) (fuel : ℕ) (cam : Camera)
    (timeout : Time) : Except CamErr (Option (Camera × Option MovieFrame)) :=
  if cam.player.isNone then .error .playerNotAvailable
  else
    match enqueueFrame env fuel cam timeout with
    | .error e => .error e
    | .ok none => .ok none
    | .ok (some (cam1, _)) => .ok (some (cam1, cam1.lastFrame))

/-- The OS facts getCameras consults: the glob result under /dev on Linux,
and the DirectShow device list on Windows as (key, human-readable name or
None) pairs in enumeration order. -/
structure OSEnv where
  globVideoLinux : List String
  dshowDevices : List (String × Option String)

/-- getCameras: Darwin falls through with the empty accumulator; Linux
collects the glob matches and sorts them; Windows maps each DirectShow key
to its human-readable name when one exists; any other platform raises
OSError. -/
def getCameras (systemName : String) (env : OSEnv) :
    Except CamErr (List String) :=
  if systemName = "Darwin" then .ok []
  else if systemName = "Linux" then
    .ok (env.globVideoLinux.mergeSort (fun a b => decide (a ≤ b)))
  else if systemName = "Windows" then
    .ok (env.dshowDevices.map (fun d => d.2.getD d.1))
  else .error (.unsupportedPlatform systemName)

/-- A player environment that always has the frame f ready with an empty
status string, a clock frozen at 0 and fixed metadata m. -/
def deliverEnv (f : FrameData) (m : Metadata) : PlayerEnv :=
  { clock := fun _ => 0
    frames := fun _ => (some f, "")
    metadata := m }

/-- One successful frame pull: enqueueFrame with timeout 0 against an
environment that has f ready at once (with timeout 0 the inverted
comparison leaves timedOut false, so the frame is processed).  Identity
when enqueueFrame does not succeed. -/
def pullOne (m : Metadata) (cam : Camera) (f : FrameData) : Camera :=
  match enqueueFrame (deliverEnv f m) 1 cam 0 with
  | .ok (some p) => p.1
  | _ => cam

/-! Concrete fixtures used by the witnesses and counterexamples below.  All
camera states are reached through the modelled operations themselves. -/

/-- A fixed metadata value (the Windows default configuration the source
requests). -/
def m0 : Metadata :=
  { width := 320, height := 240, frameRate := 30, pixelFormat := "yuyv422" }

/-- A raw frame available from the player. -/
def f0 : FrameData :=
  { colorData := 7, absPts := 2 }

/-- A player whose next frame is ready at once, with all getTime readings
equal (no time passes between loop iterations). -/
def envFrameReady : PlayerEnv :=
  deliverEnv f0 m0

/-- A player that never has a frame ready, with all getTime readings
equal. -/
def envNoFrameFast : PlayerEnv :=
  { clock := fun _ => 0
    frames := fun _ => (none, "")
    metadata := m0 }

/-- A writer environment with a fixed fresh identifier. -/
def wenvA : WriterEnv :=
  { randName := "abc123", mkdtempRand := "tmp0" }

/-- The environment of an openCam call against envNoFrameFast. -/
def openEnvNF : OpenEnv :=
  { penv := envNoFrameFast, wenv := wenvA }

/-- A freshly constructed camera (no microphone, no output file). -/
def cam0 : Camera :=
  mkCamera ("cam0") none

/-- cam0 after openCam (the initial pull finds no frame within its
timeout; openCam completes regardless). -/
def camOpen : Camera :=
  match openCam openEnvNF 3 cam0 with
  | .ok (some c) => c
  | _ => cam0

/-- camOpen after configuring an output file through the outFile setter. -/
def camOpenOut : Camera :=
  match setOutFile camOpen (some "out.mp4") with
  | .ok c => c
  | _ => camOpen

/-- camOpen after record(streamOnly=True). -/
def camRecStream : Camera :=
  match record wenvA camOpen true with
  | .ok c => c
  | _ => camOpen

/-- camRecStream after one successful frame pull at absolute time 5. -/
def camPull1 : Camera :=
  pullOne m0 camRecStream { colorData := 9, absPts := 5 }

/-- camPull1 after a second successful frame pull at absolute time 6. -/
def camPull2 : Camera :=
  pullOne m0 camPull1 { colorData := 10, absPts := 6 }

/-- camPull1 after stop(). -/
def camStopped : Camera :=
  match stop camPull1 with
  | .ok c => c
  | _ => camPull1

/-- A fresh camera with an attached microphone. -/
def camMic0 : Camera :=
  mkCamera ("cam0") (some false)

/-- camMic0 after openCam. -/
def camMicOpen : Camera :=
  match openCam openEnvNF 3 camMic0 with
  | .ok (some c) => c
  | _ => camMic0

/-- camMicOpen after record(streamOnly=True): the microphone collaborator
has been told to start capturing. -/
def camMicRec : Camera :=
  match record wenvA camMicOpen true with
  | .ok c => c
  | _ => camMicOpen

/-- camMicRec after stop(). -/
def camMicStopped : Camera :=
  match stop camMicRec with
  | .ok c => c
  | _ => camMicRec

/-- A stopped camera that recorded with output path a.mp4 configured, as
left by a stop() (writer closed), with its temporary files on disk. -/
def camSaveA : Camera :=
  { camOpen with
    status := CamStatus.stopped
    outFile := some "a.mp4"
    tempVideoFileName := "tv.mp4"
    tempAudioFileName := "ta.wav"
    player := some true }

/-- A filesystem where every path is writable, only the two temporary
recording files exist, and the merged file moviepy writes has 42 bytes. -/
def fsA : FileSys :=
  { writable := fun _ => true
    size := fun p =>
      if p = "tv.mp4" then some 10
      else if p = "ta.wav" then some 10
      else none
    mergeSize := 42 }

/-- An OS environment: two Linux video devices listed out of order, two
DirectShow devices of which only the first has a human-readable name. -/
def osEnvA : OSEnv :=
  { globVideoLinux := ["video1", "video0"]
    dshowDevices := [("k0", some "CamA"), ("k1", none)] }

/-- camOpen after record(streamOnly=False): since no output file is
configured, openWriter is a no-op and no writer handle is acquired. -/
def camRecNoWriter : Camera :=
  match record wenvA camOpen false with
  | .ok c => c
  | _ => camOpen

/-- camSaveA with the status forced back to RECORDING (save called
mid-recording). -/
def camSaveRec : Camera :=
  { camSaveA with status := CamStatus.recording }

/-- First frame of a recording session used by the session witness. -/
def fw1 : FrameData :=
  { colorData := 1, absPts := 3 }

/-- Second frame of that session. -/
def fw2 : FrameData :=
  { colorData := 2, absPts := 4 }

/-- Third frame of that session (equal timestamp: non-decreasing, not
strictly increasing). -/
def fw3 : FrameData :=
  { colorData := 3, absPts := 4 }

/-! Helper lemmas. -/

/-- Camera.writeFrame changes no attribute other than the writer. -/
theorem writeFrame_keeps (cam : Camera) (cd : ℕ) (ts : Time) :
    (writeFrame cam cd ts).player = cam.player ∧
    (writeFrame cam cd ts).status = cam.status ∧
    (writeFrame cam cd ts).pts = cam.pts ∧
    (writeFrame cam cd ts).startPts = cam.startPts ∧
    (writeFrame cam cd ts).absPts = cam.absPts ∧
    (writeFrame cam cd ts).lastFrame = cam.lastFrame ∧
    (writeFrame cam cd ts).frameIndex = cam.frameIndex ∧
    (writeFrame cam cd ts).recentMetadata = cam.recentMetadata := by
  cases h : cam.writer with
  | none => simp [writeFrame, h]
  | some w =>
    simp only [writeFrame, h]
    split
    · simp
    · simp

/-- writeFrame leaves the player untouched. -/
theorem writeFrame_player (cam : Camera) (cd : ℕ) (ts : Time) :
    (writeFrame cam cd ts).player = cam.player :=
  (writeFrame_keeps cam cd ts).1

/-- writeFrame leaves the status untouched. -/
theorem writeFrame_status (cam : Camera) (cd : ℕ) (ts : Time) :
    (writeFrame cam cd ts).status = cam.status :=
  (writeFrame_keeps cam cd ts).2.1

/-- writeFrame leaves pts untouched. -/
theorem writeFrame_pts (cam : Camera) (cd : ℕ) (ts : Time) :
    (writeFrame cam cd ts).pts = cam.pts :=
  (writeFrame_keeps cam cd ts).2.2.1

/-- writeFrame leaves startPts untouched. -/
theorem writeFrame_startPts (cam : Camera) (cd : ℕ) (ts : Time) :
    (writeFrame cam cd ts).startPts = cam.startPts :=
  (writeFrame_keeps cam cd ts).2.2.2.1

/-- writeFrame leaves absPts untouched. -/
theorem writeFrame_absPts (cam : Camera) (cd : ℕ) (ts : Time) :
    (writeFrame cam cd ts).absPts = cam.absPts :=
  (writeFrame_keeps cam cd ts).2.2.2.2.1

/-- writeFrame leaves lastFrame untouched. -/
theorem writeFrame_lastFrame (cam : Camera) (cd : ℕ) (ts : Time) :
    (writeFrame cam cd ts).lastFrame = cam.lastFrame :=
  (writeFrame_keeps cam cd ts).2.2.2.2.2.1

/-- writeFrame leaves frameIndex untouched. -/
theorem writeFrame_frameIndex (cam : Camera) (cd : ℕ) (ts : Time) :
    (writeFrame cam cd ts).frameIndex = cam.frameIndex :=
  (writeFrame_keeps cam cd ts).2.2.2.2.2.2.1

/-- writeFrame leaves recentMetadata untouched. -/
theorem writeFrame_recentMetadata (cam : Camera) (cd : ℕ) (ts : Time) :
    (writeFrame cam cd ts).recentMetadata = cam.recentMetadata :=
  (writeFrame_keeps cam cd ts).2.2.2.2.2.2.2

/-- The empty status string is not the end-of-stream marker. -/
theorem empty_not_eof : ¬ ("" : String) = "eof" := by decide

/-- With a player present, pullOne is exactly the frame-processing tail of
enqueueFrame applied after the metadata refresh, with an empty status
string. -/
theorem pullOne_eq (m : Metadata) (cam : Camera) (f : FrameData)
    (hp : cam.player.isNone = false) :
    pullOne m cam f =
      processFrame m { cam with recentMetadata := MetaVal.meta m } f "" := by
  unfold pullOne enqueueFrame
  simp only [hp, Bool.false_eq_true, if_false]
  rfl

/-- processFrame on the first frame of a recording session (null lastFrame,
empty status string): startPts latches to the frame timestamp and pts
becomes 0. -/
theorem processFrame_first (m : Metadata) (cam : Camera) (f : FrameData)
    (hrec : cam.status = CamStatus.recording)
    (hlf : cam.lastFrame = none) :
    (processFrame m cam f "").player = cam.player ∧
    (processFrame m cam f "").status = CamStatus.recording ∧
    (processFrame m cam f "").lastFrame.isSome = true ∧
    (processFrame m cam f "").absPts = f.absPts ∧
    (processFrame m cam f "").startPts = f.absPts ∧
    (processFrame m cam f "").pts = 0 ∧
    (processFrame m cam f "").frameIndex = cam.frameIndex := by
  unfold processFrame
  simp only [hrec, hlf, Option.isNone_none, if_true, if_pos, if_neg empty_not_eof,
    writeFrame_player, writeFrame_status, writeFrame_pts, writeFrame_startPts,
    writeFrame_absPts, writeFrame_lastFrame, writeFrame_frameIndex,
    Option.isSome_some, sub_self, and_self]

/-- processFrame on a later frame of a recording session (lastFrame holds a
real frame, empty status string): startPts is kept and pts becomes the
frame timestamp minus startPts. -/
theorem processFrame_next (m : Metadata) (cam : Camera) (f : FrameData)
    (fr0 : MovieFrame)
    (hrec : cam.status = CamStatus.recording)
    (hlf : cam.lastFrame = some fr0) :
    (processFrame m cam f "").player = cam.player ∧
    (processFrame m cam f "").status = CamStatus.recording ∧
    (processFrame m cam f "").lastFrame.isSome = true ∧
    (processFrame m cam f "").absPts = f.absPts ∧
    (processFrame m cam f "").startPts = cam.startPts ∧
    (processFrame m cam f "").pts = f.absPts - cam.startPts ∧
    (processFrame m cam f "").frameIndex = cam.frameIndex := by
  unfold processFrame
  simp only [hrec, hlf, Option.isNone_some, if_true, if_pos, if_neg empty_not_eof,
    writeFrame_player, writeFrame_status, writeFrame_pts, writeFrame_startPts,
    writeFrame_absPts, writeFrame_lastFrame, writeFrame_frameIndex,
    Option.isSome_some, and_self]
  simp [hrec]

/-- pullOne on the first frame of a recording session. -/
theorem pullOne_first (m : Metadata) (cam : Camera) (f : FrameData)
    (hp : cam.player.isNone = false)
    (hrec : cam.status = CamStatus.recording)
    (hlf : cam.lastFrame = none) :
    (pullOne m cam f).player = cam.player ∧
    (pullOne m cam f).status = CamStatus.recording ∧
    (pullOne m cam f).lastFrame.isSome = true ∧
    (pullOne m cam f).absPts = f.absPts ∧
    (pullOne m cam f).startPts = f.absPts ∧
    (pullOne m cam f).pts = 0 ∧
    (pullOne m cam f).frameIndex = cam.frameIndex := by
  rw [pullOne_eq m cam f hp]
  exact processFrame_first m { cam with recentMetadata := MetaVal.meta m } f hrec hlf

/-- pullOne on a later frame of a recording session. -/
theorem pullOne_next (m : Metadata) (cam : Camera) (f : FrameData)
    (fr0 : MovieFrame)
    (hp : cam.player.isNone = false)
    (hrec : cam.status = CamStatus.recording)
    (hlf : cam.lastFrame = some fr0) :
    (pullOne m cam f).player = cam.player ∧
    (pullOne m cam f).status = CamStatus.recording ∧
    (pullOne m cam f).lastFrame.isSome = true ∧
    (pullOne m cam f).absPts = f.absPts ∧
    (pullOne m cam f).startPts = cam.startPts ∧
    (pullOne m cam f).pts = f.absPts - cam.startPts ∧
    (pullOne m cam f).frameIndex = cam.frameIndex := by
  rw [pullOne_eq m cam f hp]
  exact processFrame_next m { cam with recentMetadata := MetaVal.meta m } f fr0 hrec hlf

/-- Along a recording session already past its first frame (startPts
latched to s), every state produced by folding pullOne over further frames
keeps pts = absPts - s, and pts is monotone when the frame timestamps
are. -/
theorem pull_session_aux (m : Metadata) (fs : List FrameData) :
    ∀ (c0 : Camera) (s : Time),
      c0.player.isNone = false →
      c0.status = CamStatus.recording →
      c0.lastFrame.isSome = true →
      c0.startPts = s →
      c0.pts = c0.absPts - s →
      List.Chain (fun a b => a ≤ b) c0.absPts (fs.map FrameData.absPts) →
      (∀ c ∈ fs.scanl (pullOne m) c0, c.pts = c.absPts - s) ∧
      List.Chain' (fun c c2 : Camera => c.pts ≤ c2.pts) (fs.scanl (pullOne m) c0) := by
  induction fs with
  | nil =>
    intro c0 s hp hrec hlf hstart hpts hchain
    refine ⟨?_, ?_⟩
    · intro c hc
      simp only [List.scanl_nil, List.mem_singleton] at hc
      subst hc
      exact hpts
    · simp [List.scanl_nil]
  | cons f rest ih =>
    intro c0 s hp hrec hlf hstart hpts hchain
    obtain ⟨fr0, hfr0⟩ := Option.isSome_iff_exists.mp hlf
    obtain ⟨hP, hS, hL, hA, hSt, hPts, hFI⟩ := pullOne_next m c0 f fr0 hp hrec hfr0
    simp only [List.map_cons, List.chain_cons] at hchain
    obtain ⟨hle, hchain1⟩ := hchain
    have hp1 : (pullOne m c0 f).player.isNone = false := by rw [hP]; exact hp
    have hstart1 : (pullOne m c0 f).startPts = s := by rw [hSt]; exact hstart
    have hpts1 : (pullOne m c0 f).pts = (pullOne m c0 f).absPts - s := by
      rw [hPts, hA, hstart]
    have hchain2 :
        List.Chain (fun a b => a ≤ b) (pullOne m c0 f).absPts
          (rest.map FrameData.absPts) := by
      rw [hA]; exact hchain1
    obtain ⟨ihAll, ihChain⟩ := ih (pullOne m c0 f) s hp1 hS hL hstart1 hpts1 hchain2
    rw [List.scanl_cons]
    refine ⟨?_, ?_⟩
    · intro c hc
      rcases List.mem_cons.mp hc with hc0 | hcs
      · subst hc0; exact hpts
      · exact ihAll c hcs
    · have hhead : ∀ c ∈ (List.scanl (pullOne m) (pullOne m c0 f) rest).head?,
          c0.pts ≤ c.pts := by
        intro c hc
        have hc1 : c = pullOne m c0 f := by
          cases rest with
          | nil => simp [List.scanl_nil] at hc; exact hc.symm
          | cons g t => simp [List.scanl_cons] at hc; exact hc.symm
        subst hc1
        rw [hpts, hPts, hstart]
        exact sub_le_sub_right hle s
      exact List.chain'_cons'.mpr ⟨hhead, ihChain⟩

/-- processFrame never touches the player handle or recentMetadata. -/
theorem processFrame_player_meta (m : Metadata) (cam : Camera) (fr : FrameData)
    (s : String) :
    (processFrame m cam fr s).player = cam.player ∧
    (processFrame m cam fr s).recentMetadata = cam.recentMetadata := by
  unfold processFrame
  dsimp only
  by_cases hrec : cam.status = CamStatus.recording <;>
    by_cases heof : s = "eof" <;>
      simp [hrec, heof, writeFrame_player, writeFrame_recentMetadata]

/-- Any state an enqueueFrame call can return keeps the camera's player and
has its recentMetadata refreshed from the source. -/
theorem enqueueFrame_ok_player_meta (env : PlayerEnv) (fuel : ℕ)
    (cam cam' : Camera) (timeout : Time) (b : Bool)
    (h : enqueueFrame env fuel cam timeout = .ok (some (cam', b))) :
    cam'.player = cam.player ∧
    cam'.recentMetadata = MetaVal.meta env.metadata := by
  unfold enqueueFrame at h
  cases hp : cam.player.isNone with
  | true => rw [hp] at h; simp at h
  | false =>
    rw [hp] at h
    simp only [Bool.false_eq_true, if_false] at h
    rcases hfl : frameLoop env timeout fuel 0 with _ | ⟨t, frOpt, s⟩ <;> rw [hfl] at h
    · simp at h
    · cases t with
      | true =>
        simp only [if_true] at h
        simp only [Except.ok.injEq, Option.some.injEq, Prod.mk.injEq] at h
        obtain ⟨hc, hb⟩ := h
        subst hc
        exact ⟨rfl, rfl⟩
      | false =>
        simp only [Bool.false_eq_true, if_false] at h
        cases frOpt with
        | none =>
          simp only [Except.ok.injEq, Option.some.injEq, Prod.mk.injEq] at h
          obtain ⟨hc, hb⟩ := h
          subst hc
          exact ⟨rfl, rfl⟩
        | some fr =>
          simp only [Except.ok.injEq, Option.some.injEq, Prod.mk.injEq] at h
          obtain ⟨hc, hb⟩ := h
          subst hc
          obtain ⟨h1, h2⟩ :=
            processFrame_player_meta env.metadata
              { cam with recentMetadata := MetaVal.meta env.metadata } fr s
          exact ⟨h1, h2⟩

/-- openWriter keeps the player handle and recentMetadata. -/
theorem openWriter_player_meta (env : WriterEnv) (cam cam' : Camera)
    (h : openWriter env cam = .ok cam') :
    cam'.player = cam.player ∧ cam'.recentMetadata = cam.recentMetadata := by
  unfold openWriter at h
  cases hw : cam.writer.isSome with
  | true => rw [hw] at h; simp at h
  | false =>
    rw [hw] at h
    simp only [Bool.false_eq_true, if_false] at h
    cases hp : cam.player.isNone with
    | true => rw [hp] at h; simp at h
    | false =>
      rw [hp] at h
      simp only [Bool.false_eq_true, if_false] at h
      rcases ho : cam.outFile with _ | p <;> rw [ho] at h
      · simp only [Except.ok.injEq] at h
        subst h; exact ⟨rfl, rfl⟩
      · rcases hm : cam.recentMetadata with _ | _ | m2 <;> rw [hm] at h <;>
          simp only [Except.ok.injEq] at h
        · exact absurd h (by simp)
        · exact absurd h (by simp)
        · subst h; exact ⟨rfl, rfl⟩

/-! Claim theorems. -/

/-- C1: the claim says getVideoFrame blocks for at most timeout seconds,
polling until a frame arrives or the timeout elapses (nonpositive timeout
returning at once), and yields the null-frame sentinel on timeout.  The
code computes timedOut as (elapsed < timeout), inverting the comparison:
with a positive timeout and a frame ready on the very first poll the pull
still reports a timeout and getVideoFrame returns the null sentinel (first
conjunct), and with timeout 0 and no frame the polling loop never
terminates, whatever fuel it is given (second and third conjuncts). -/
theorem C1_getVideoFrame_timeout_inverted :
    getVideoFrame envFrameReady 5 camOpen 1 = .ok (some (camOpen, none)) ∧
    (∀ fuel k, frameLoop envNoFrameFast 0 fuel k = none) ∧
    (∀ fuel, getVideoFrame envNoFrameFast fuel camOpen 0 = .ok none) := by
  have hloop : ∀ fuel k, frameLoop envNoFrameFast 0 fuel k = none := by
    intro fuel
    induction fuel with
    | zero => intro k; rfl
    | succ n ih => intro k; exact ih (k + 1)
  refine ⟨rfl, hloop, ?_⟩
  intro fuel
  unfold getVideoFrame enqueueFrame
  have hp : camOpen.player.isNone = false := rfl
  rw [hp]
  simp only [Bool.false_eq_true, if_false, hloop fuel 0]

/-- C2: the claim says save(path) rejects any state other than Stopped (it
does, last conjunct) and, when Stopped with a writable path, produces the
merged file at path and returns its size.  The code instead renders to the
outFile configured before the call and assigns path to outFile only
afterwards, so with the previous output path a.mp4 the merged file lands at
a.mp4, nothing is written at the requested b.mp4, and the final
os.path.getsize of b.mp4 fails. -/
theorem C2_save_renders_to_stale_outFile :
    save fsA camSaveA ("b.mp4") = .error CamErr.fileNotFound ∧
    renderVideo fsA camSaveA = .ok (fsWrite fsA ("a.mp4") 42, camSaveA, true) ∧
    (fsWrite fsA ("a.mp4") 42).size ("a.mp4") = some 42 ∧
    (fsWrite fsA ("a.mp4") 42).size ("b.mp4") = none ∧
    save fsA camSaveRec ("b.mp4") = .error CamErr.saveBeforeStop :=
  ⟨rfl, rfl, rfl, rfl, rfl⟩

/-- C3 counterexample: an opened controller with no output file configured
reaches RECORDING through record(streamOnly=False) without any FrameWriter
handle being acquired, against the claim that every opened controller gets
a writer. -/
theorem C3_record_no_writer_counterexample :
    record wenvA camOpen false = .ok camRecNoWriter ∧
    camRecNoWriter.writer = none ∧
    camRecNoWriter.status = CamStatus.recording :=
  ⟨rfl, rfl, rfl⟩

/-- C3 amended: record(streamOnly=False) on an opened controller opens the
FrameWriter only when an output file is configured and no writer already
exists; the writer is then bound to the temporary video file whose name
embeds the fresh random identifier, configured with the width, height and
frame rate of the most recent stream metadata, and the state transitions to
Recording with the last-frame marker reset. -/
theorem C3_record_opens_writer (env : WriterEnv) (cam : Camera) (p : String)
    (m2 : Metadata)
    (hp : cam.player.isNone = false)
    (hw : cam.writer = none)
    (ho : cam.outFile = some p)
    (hm : cam.recentMetadata = MetaVal.meta m2) :
    ∃ cam', record env cam false = .ok cam' ∧
      cam'.status = CamStatus.recording ∧
      cam'.lastFrame = none ∧
      cam'.writer = some
        { fileName := tempVideoOf env
          pixFmtIn := "yuv420p"
          widthIn := m2.width
          heightIn := m2.height
          frameRate := m2.frameRate
          written := [] } ∧
      cam'.tempVideoFileName = tempVideoOf env ∧
      tempVideoOf env = tempRootOf env ++ "/video-" ++ env.randName ++ ".mp4" := by
  unfold record openWriter
  rw [hp]
  simp only [Bool.false_eq_true, if_false]
  rw [hw]
  simp only [Option.isSome_none, Bool.false_eq_true, if_false, hp]
  rw [ho, hm]
  rcases hmic : cam.mic with _ | mb <;> simp only [hmic]
  · exact ⟨_, rfl, rfl, rfl, rfl, rfl, rfl⟩
  · exact ⟨_, rfl, rfl, rfl, rfl, rfl, rfl⟩

/-- C3 witness: the amended statement at the concrete opened camera with
out.mp4 configured. -/
theorem C3_record_opens_writer_witness :
    ∃ cam', record wenvA camOpenOut false = .ok cam' ∧
      cam'.status = CamStatus.recording ∧
      cam'.lastFrame = none ∧
      cam'.writer = some
        { fileName := tempVideoOf wenvA
          pixFmtIn := "yuv420p"
          widthIn := m0.width
          heightIn := m0.height
          frameRate := m0.frameRate
          written := [] } ∧
      cam'.tempVideoFileName = tempVideoOf wenvA ∧
      tempVideoOf wenvA = tempRootOf wenvA ++ "/video-" ++ wenvA.randName ++ ".mp4" :=
  C3_record_opens_writer wenvA camOpenOut ("out.mp4") m0 rfl rfl rfl rfl

/-- C4 counterexample: opening against a source that never delivers a frame
within the initial pull's timeout raises nothing and leaves the controller
reporting isReady = true, against the claim that open() fails with a
not-ready condition in that case. -/
theorem C4_open_no_frame_counterexample :
    openCam openEnvNF 3 cam0 = .ok (some camOpen) ∧
    isReady camOpen = true ∧
    camOpen.recentMetadata = MetaVal.meta m0 :=
  ⟨rfl, rfl, rfl⟩

/-- C4 amended: open() raises a misuse error on an already-open controller;
when it returns successfully (even though the initial frame pull found no
frame, whose failure it ignores) the controller reports isReady = true and
metadata holds the stream metadata reported by the source, not data taken
from a pulled frame. -/
theorem C4_open_misuse_and_ready (env : OpenEnv) (fuel : ℕ) (cam cam' : Camera) :
    (cam.player.isSome = true → openCam env fuel cam = .error CamErr.alreadyOpened) ∧
    (openCam env fuel cam = .ok (some cam') →
      isReady cam' = true ∧
      cam'.recentMetadata = MetaVal.meta env.penv.metadata) := by
  constructor
  · intro hp
    unfold openCam
    rw [hp]
    simp
  · intro h
    unfold openCam at h
    cases hp : cam.player.isSome with
    | true => rw [hp] at h; simp at h
    | false =>
      rw [hp] at h
      simp only [Bool.false_eq_true, if_false] at h
      split at h
      · simp at h
      · simp at h
      · rename_i cam2 b he
        split at h
        · simp at h
        · rename_i cam3 hw
          simp only [Except.ok.injEq, Option.some.injEq] at h
          subst h
          obtain ⟨hpl, hmeta⟩ :=
            enqueueFrame_ok_player_meta env.penv fuel
              { cam with player := some false } cam2 1 b he
          obtain ⟨hpl3, hmeta3⟩ := openWriter_player_meta env.wenv cam2 cam3 hw
          constructor
          · unfold isReady
            rw [hpl3, hpl, hmeta3, hmeta]
            simp
          · rw [hmeta3, hmeta]

/-- C5: during a recording session that starts in RECORDING with the null
last-frame marker (the state record() leaves), the first pulled frame
latches startPts to its absolute timestamp so recordingTime is 0, every
later state of the session has recordingTime equal to its absolute
timestamp minus that latched start, and recordingTime is monotonically
non-decreasing along the session when the source timestamps are. -/
theorem C5_recordingTime_session (m : Metadata) (cam : Camera) (f : FrameData)
    (fs : List FrameData)
    (hp : cam.player.isNone = false)
    (hrec : cam.status = CamStatus.recording)
    (hlf : cam.lastFrame = none)
    (hmono : List.Chain' (fun a b : FrameData => a.absPts ≤ b.absPts) (f :: fs)) :
    (pullOne m cam f).pts = 0 ∧
    (∀ c ∈ ((f :: fs).scanl (pullOne m) cam).tail, c.pts = c.absPts - f.absPts) ∧
    List.Chain' (fun c c2 : Camera => c.pts ≤ c2.pts)
      (((f :: fs).scanl (pullOne m) cam).tail) := by
  obtain ⟨hP, hS, hL, hA, hSt, hPts, hFI⟩ := pullOne_first m cam f hp hrec hlf
  have hp1 : (pullOne m cam f).player.isNone = false := by rw [hP]; exact hp
  have hpts1 : (pullOne m cam f).pts = (pullOne m cam f).absPts - f.absPts := by
    rw [hPts, hA]; simp
  have hch : List.Chain (fun a b : FrameData => a.absPts ≤ b.absPts) f fs := hmono
  have hchain : List.Chain (fun a b => a ≤ b) (pullOne m cam f).absPts
      (fs.map FrameData.absPts) := by
    rw [hA]
    exact (List.chain_map FrameData.absPts).mpr hch
  obtain ⟨hAll, hChain⟩ :=
    pull_session_aux m fs (pullOne m cam f) f.absPts hp1 hS hL hSt hpts1 hchain
  rw [List.scanl_cons]
  simp only [List.singleton_append, List.tail_cons]
  exact ⟨hPts, hAll, hChain⟩

/-- C5 witness: the session property at a concrete recording camera and the
frame timestamps 3, 4, 4. -/
theorem C5_recordingTime_session_witness :
    (pullOne m0 camRecStream fw1).pts = 0 ∧
    (∀ c ∈ ((fw1 :: [fw2, fw3]).scanl (pullOne m0) camRecStream).tail,
      c.pts = c.absPts - fw1.absPts) ∧
    List.Chain' (fun c c2 : Camera => c.pts ≤ c2.pts)
      (((fw1 :: [fw2, fw3]).scanl (pullOne m0) camRecStream).tail) :=
  C5_recordingTime_session m0 camRecStream fw1 [fw2, fw3] rfl rfl rfl
    (by norm_num [List.chain'_cons, fw1, fw2, fw3])

/-- C6: the claim says recordingTime resets to the negative invalid
sentinel on every transition away from Recording, in particular after
stop().  In a streamOnly session no writer is open, closeWriter returns
before resetting the timestamps, and recordingTime stays at its last
recorded value 0 (not negative) after stop() has moved the state to
Stopped. -/
theorem C6_stop_streamOnly_keeps_recordingTime :
    camPull1.status = CamStatus.recording ∧
    recordingTime camPull1 = 0 ∧
    stop camPull1 = .ok camStopped ∧
    camStopped.status = CamStatus.stopped ∧
    recordingTime camStopped = 0 ∧
    ¬ recordingTime camStopped < 0 :=
  ⟨rfl, rfl, rfl, rfl, rfl, by decide⟩

/-- C7 counterexample: enumeration on Darwin, a platform the source gives
no enumeration strategy (its branch is a bare pass), silently returns the
empty list instead of raising the unsupported-platform error the claim
requires. -/
theorem C7_darwin_silent_empty :
    getCameras ("Darwin") osEnvA = .ok [] :=
  rfl

/-- C7 amended: getCameras raises the unsupported-platform OSError only on
platforms other than Darwin, Linux and Windows; Darwin silently yields the
empty list; Linux yields the glob matches in sorted order (a sorted
permutation of what the OS reported); Windows yields the DirectShow
devices in enumeration order, each identified by its human-readable name
when one exists. -/
theorem C7_enumeration (systemName : String) (env : OSEnv) :
    (systemName ≠ "Darwin" → systemName ≠ "Linux" → systemName ≠ "Windows" →
      getCameras systemName env =
        .error (CamErr.unsupportedPlatform systemName)) ∧
    getCameras ("Darwin") env = .ok [] ∧
    (∃ l, getCameras ("Linux") env = .ok l ∧
      List.Sorted (fun a b : String => a ≤ b) l ∧
      l.Perm env.globVideoLinux) ∧
    getCameras ("Windows") env =
      .ok (env.dshowDevices.map (fun d => d.2.getD d.1)) := by
  refine ⟨?_, rfl, ?_, rfl⟩
  · intro h1 h2 h3
    unfold getCameras
    rw [if_neg h1, if_neg h2, if_neg h3]
  · refine ⟨env.globVideoLinux.mergeSort (fun a b => decide (a ≤ b)), rfl, ?_, ?_⟩
    · exact List.sorted_mergeSort' env.globVideoLinux
    · exact List.mergeSort_perm env.globVideoLinux (fun a b => decide (a ≤ b))

/-- C8 counterexample: stopping a controller whose attached microphone was
started by record() leaves the microphone's capture flag set: stop() never
calls into the microphone, against the claim that the microphone stops in
lockstep with the video. -/
theorem C8_mic_not_stopped_counterexample :
    camMicRec.mic = some true ∧
    camMicRec.status = CamStatus.recording ∧
    stop camMicRec = .ok camMicStopped ∧
    camMicStopped.status = CamStatus.stopped ∧
    camMicStopped.mic = some true :=
  ⟨rfl, rfl, rfl, rfl, rfl⟩

/-- C8 amended: stop() on an opened controller moves the state to Stopped,
closes the player's playback while keeping the handle, clears the
FrameWriter handle (resetting the timestamps when a writer was open), and
leaves the microphone untouched. -/
theorem C8_stop_behavior (cam : Camera) (hp : cam.player.isNone = false) :
    ∃ cam', stop cam = .ok cam' ∧
      cam'.status = CamStatus.stopped ∧
      cam'.player = some true ∧
      cam'.writer = none ∧
      cam'.mic = cam.mic ∧
      (cam.writer.isSome = true →
        cam'.pts = -1 ∧ cam'.startPts = -1 ∧ cam'.absPts = -1) := by
  unfold stop closeWriter
  rw [hp]
  simp only [Bool.false_eq_true, if_false]
  rcases hw : cam.writer with _ | w <;> simp only [hw]
  · refine ⟨_, rfl, rfl, rfl, rfl, rfl, ?_⟩
    intro hws
    simp at hws
  · exact ⟨_, rfl, rfl, rfl, rfl, rfl, fun hws => ⟨rfl, rfl, rfl⟩⟩

/-- C8 witness: the amended statement at the concrete recording camera
with a started microphone. -/
theorem C8_stop_behavior_witness :
    ∃ cam', stop camMicRec = .ok cam' ∧
      cam'.status = CamStatus.stopped ∧
      cam'.player = some true ∧
      cam'.writer = none ∧
      cam'.mic = camMicRec.mic ∧
      (camMicRec.writer.isSome = true →
        cam'.pts = -1 ∧ cam'.startPts = -1 ∧ cam'.absPts = -1) :=
  C8_stop_behavior camMicRec rfl

/-- C9 counterexample: two successive successfully pulled frames both carry
the frame index -1 while being different frames, against the claim that
the index strictly increases with every pulled frame. -/
theorem C9_constant_index_counterexample :
    camPull1.lastFrame.map MovieFrame.frameIndex = some (-1) ∧
    camPull2.lastFrame.map MovieFrame.frameIndex = some (-1) ∧
    camPull2.lastFrame ≠ camPull1.lastFrame :=
  ⟨rfl, rfl, by decide⟩

/-- C9 amended: the controller's frameIndex counter starts at -1 at
construction and is never incremented: every successful pull publishes a
frame stamped with the unchanged counter, so all frames of a controller
share the index -1. -/
theorem C9_frameIndex_constant (m : Metadata) (cam : Camera) (f : FrameData)
    (d : String) (mic : Option Bool) (hp : cam.player.isNone = false) :
    (mkCamera d mic).frameIndex = -1 ∧
    (pullOne m cam f).frameIndex = cam.frameIndex ∧
    (pullOne m cam f).lastFrame = some
      { frameIndex := cam.frameIndex
        absTime := f.absPts
        size := (m.width, m.height)
        colorData := f.colorData } := by
  refine ⟨rfl, ?_, ?_⟩ <;>
  · rw [pullOne_eq m cam f hp]
    unfold processFrame
    dsimp only
    by_cases hrec : cam.status = CamStatus.recording <;>
      simp [hrec, writeFrame_frameIndex, writeFrame_lastFrame, empty_not_eof]

/-- C9 witness: the amended statement at a concrete recording camera and a
concrete frame. -/
theorem C9_frameIndex_constant_witness :
    (mkCamera ("cam0") none).frameIndex = -1 ∧
    (pullOne m0 camPull1 fw2).frameIndex = camPull1.frameIndex ∧
    (pullOne m0 camPull1 fw2).lastFrame = some
      { frameIndex := camPull1.frameIndex
        absTime := fw2.absPts
        size := (m0.width, m0.height)
        colorData := fw2.colorData } :=
  C9_frameIndex_constant m0 camPull1 fw2 ("cam0") none rfl

/-- C10: a frame pull that ends on the timeout path (enqueueFrame returns
False) leaves lastFrame, the absolute timestamp, recordingTime, the
recording-start timestamp and the status exactly as they were, while
recentMetadata has still been refreshed from the source. -/
theorem C10_timeout_pull_preserves_state (env : PlayerEnv) (fuel : ℕ)
    (cam cam' : Camera) (timeout : Time)
    (h : enqueueFrame env fuel cam timeout = .ok (some (cam', false))) :
    cam'.lastFrame = cam.lastFrame ∧
    cam'.absPts = cam.absPts ∧
    cam'.pts = cam.pts ∧
    cam'.startPts = cam.startPts ∧
    cam'.status = cam.status ∧
    cam'.recentMetadata = MetaVal.meta env.metadata := by
  unfold enqueueFrame at h
  cases hp : cam.player.isNone with
  | true => rw [hp] at h; simp at h
  | false =>
    rw [hp] at h
    simp only [Bool.false_eq_true, if_false] at h
    rcases hfl : frameLoop env timeout fuel 0 with _ | ⟨t, frOpt, s⟩ <;> rw [hfl] at h
    · simp at h
    · cases t with
      | true =>
        simp only [if_true] at h
        simp only [Except.ok.injEq, Option.some.injEq, Prod.mk.injEq] at h
        obtain ⟨hc, hb⟩ := h
        subst hc
        exact ⟨rfl, rfl, rfl, rfl, rfl, rfl⟩
      | false =>
        simp only [Bool.false_eq_true, if_false] at h
        cases frOpt with
        | none =>
          simp only [Except.ok.injEq, Option.some.injEq, Prod.mk.injEq] at h
          obtain ⟨hc, hb⟩ := h
          subst hc
          exact ⟨rfl, rfl, rfl, rfl, rfl, rfl⟩
        | some fr =>
          simp only [Except.ok.injEq, Option.some.injEq, Prod.mk.injEq] at h
          exact absurd h.2 (by simp)

/-- C10 witness: a concrete pull that times out against a source with no
frame ready, leaving the opened camera's state unchanged. -/
theorem C10_timeout_pull_preserves_state_witness :
    camOpen.lastFrame = camOpen.lastFrame ∧
    camOpen.absPts = camOpen.absPts ∧
    camOpen.pts = camOpen.pts ∧
    camOpen.startPts = camOpen.startPts ∧
    camOpen.status = camOpen.status ∧
    camOpen.recentMetadata = MetaVal.meta envNoFrameFast.metadata :=
  C10_timeout_pull_preserves_state envNoFrameFast 1 camOpen camOpen 1 rfl
